import Mathlib

/-!
Verification development for the subvita diabetes-risk pipeline.

We shallowly embed the parts of the code the properties talk about:
* `src/src/api/v1/routes.py` — `compute_derived_fields`, `next_steps_t2d`;
* `src/src/pipeline/05_features_labels.py` — bulk feature engineering and
  label derivation (row-level view of the dataframe operations);
* `src/src/pipeline/04_merge.py` — `left_join`;
* `src/src/pipeline/03_standardize.py` — `to_null_if_sentinel` and the
  categorical recode maps;
* `src/src/api/services/model_registry.py` — `ModelBundle.build_X`.

Python/pandas scalars are embedded as `PVal`: a null (covering both Python
`None` and pandas `NA`/float `NaN`, which `pd.isna` treats alike), a rational
number standing for a float, signed infinities (which pandas produces on
division by zero), or a string.  A payload / single-row table is a total map
from column names to `Option PVal`; `none` means the key (column) is absent,
`some PVal.null` means it is present with a null value.
-/

namespace Subvita

/-- Embedded pandas/Python scalar value. -/
inductive PVal where
  | null : PVal
  | num : ℚ → PVal
  | posinf : PVal
  | neginf : PVal
  | str : String → PVal
deriving DecidableEq, Repr

/-- A keyed payload or a single-row table: `none` = key absent,
`some PVal.null` = key present with a null value. -/
def Payload : Type := String → Option PVal

/-- `payload[k] = v` (dict item assignment / dataframe column assignment). -/
def Payload.update (p : Payload) (k : String) (v : PVal) : Payload :=
  fun k' => if k' = k then some v else p k'

/-- `payload.get(k) is None`: true when the key is absent or holds a null. -/
def Payload.isNoneAt (p : Payload) (k : String) : Bool :=
  match p k with
  | none => true
  | some PVal.null => true
  | some _ => false

/-- Read a key as a number; absent keys, nulls and non-numeric values give
`none`.  On payloads that are well typed at the numeric keys (the pydantic
schema guarantees float-or-null there) this is exactly `payload.get(k)`. -/
def Payload.getNum (p : Payload) (k : String) : Option ℚ :=
  match p k with
  | some (PVal.num q) => some q
  | _ => none

/-- The numeric keys `compute_derived_fields` and the bulk feature block read
or write; the pydantic request schema types each of them as float-or-null. -/
def numericKeys : List String :=
  ["hdl_mg_dL", "triglycerides_mg_dL", "total_cholesterol_mg_dL",
   "height_cm", "weight_kg", "bmi", "tg_to_hdl_ratio", "non_hdl_chol_mg_dL"]

/-- The payload holds only numbers or nulls at the numeric keys (what the
pydantic validation layer guarantees for every request payload). -/
def WellTyped (p : Payload) : Prop :=
  ∀ k ∈ numericKeys, ∀ v, p k = some v →
    v = PVal.null ∨ ∃ q : ℚ, v = PVal.num q

/-- `compute_derived_fields` from `src/src/api/v1/routes.py` (serving-time
single-row derivation).  Each block is compute-if-absent with an explicit
guard; the `hdl and hdl != 0` truthiness test on a float is `hdl` present
and non-zero. -/
def compute_derived_fields (p : Payload) : Payload :=
  -- TG/HDL ratio
  let p1 :=
    if p.isNoneAt "tg_to_hdl_ratio" then
      match p.getNum "hdl_mg_dL", p.getNum "triglycerides_mg_dL" with
      | some hdl, some tg =>
          if hdl ≠ 0 then p.update "tg_to_hdl_ratio" (PVal.num (tg / hdl)) else p
      | _, _ => p
    else p
  -- non-HDL cholesterol
  let p2 :=
    if p1.isNoneAt "non_hdl_chol_mg_dL" then
      match p1.getNum "total_cholesterol_mg_dL", p1.getNum "hdl_mg_dL" with
      | some tc, some hdl => p1.update "non_hdl_chol_mg_dL" (PVal.num (tc - hdl))
      | _, _ => p1
    else p1
  -- BMI if missing but height/weight present
  let p3 :=
    if p2.isNoneAt "bmi" then
      match p2.getNum "height_cm", p2.getNum "weight_kg" with
      | some ht, some wt =>
          if ht > 0 then
            p2.update "bmi" (PVal.num (wt / (ht / 100 * (ht / 100))))
          else p2
      | _, _ => p2
    else p2
  p3

/-- pandas float division of two non-null numbers: division by zero yields a
signed infinity (or NaN — embedded as null — for 0/0), never an error. -/
def pandasDiv (a b : ℚ) : PVal :=
  if b = 0 then
    if a = 0 then PVal.null
    else if a > 0 then PVal.posinf else PVal.neginf
  else PVal.num (a / b)

/-- pandas element-wise division with NA propagation. -/
def seriesDiv (a b : Option ℚ) : PVal :=
  match a, b with
  | some a, some b => pandasDiv a b
  | _, _ => PVal.null

/-- `series == "yes"` on one cell: a missing column (scalar `None`), a null
cell or a non-string cell all compare unequal to `"yes"`. -/
def eqYes (v : Option PVal) : Bool :=
  match v with
  | some (PVal.str s) => s = "yes"
  | _ => false

/-- The bulk-mode feature engineering of `src/src/pipeline/05_features_labels.py`
(lines 44–67) applied to a single-row table holding the payload.  A column
exists in the dataframe iff the key is present in the payload.  The result is
`none` when the code raises: `df["triglycerides_mg_dL"] / df["hdl_mg_dL"]` is
a `KeyError` when either column is absent, and the medication-flag line calls
`.map` on a plain `bool` (an `AttributeError`) when both medication columns
are absent. -/
def features_bulk_row (p : Payload) : Option Payload :=
  -- BMI: prefer existing bmi if present; else compute from height/weight.
  let p1 := if (p "bmi").isSome then p else p.update "bmi" PVal.null
  let p2 :=
    if p1.isNoneAt "bmi" then
      if (p1 "height_cm").isSome && (p1 "weight_kg").isSome then
        match p1.getNum "height_cm", p1.getNum "weight_kg" with
        | some ht, some wt => p1.update "bmi" (pandasDiv wt (ht / 100 * (ht / 100)))
        | _, _ => p1
      else p1
    else p1
  -- TG/HDL ratio (unconditional column assignment)
  if (p2 "triglycerides_mg_dL").isSome && (p2 "hdl_mg_dL").isSome then
    let p3 := p2.update "tg_to_hdl_ratio"
      (seriesDiv (p2.getNum "triglycerides_mg_dL") (p2.getNum "hdl_mg_dL"))
    -- Non-HDL cholesterol if total cholesterol present (with a non-null value)
    let p4 :=
      match p3.getNum "total_cholesterol_mg_dL", p3.getNum "hdl_mg_dL" with
      | some tc, some hdl =>
          p3.update "non_hdl_chol_mg_dL" (PVal.num (tc - hdl))
      | some _, none => p3.update "non_hdl_chol_mg_dL" PVal.null
      | none, _ => p3.update "non_hdl_chol_mg_dL" PVal.null
    -- Combined meds flag
    if (p4 "on_insulin_now").isSome || (p4 "on_diabetes_pills_now").isSome then
      let flag : String :=
        if eqYes (p4 "on_insulin_now") || eqYes (p4 "on_diabetes_pills_now")
        then "yes" else "no"
      some (p4.update "on_glucose_lowering_meds" (PVal.str flag))
    else none
  else none

/-! ### Label derivation (`05_features_labels.py`, lines 65–67 and 72–97)

Row-level view of the vectorised dataframe code.  In a merged-cohort row the
label-relevant fields are nullable floats (`hba1c_percent`,
`fasting_glucose_mg_dL`) and nullable strings (the self-report and medication
flags; a subject absent from the DIQ table leaves a null there, and a missing
`diabetes_self_report` column defaults the whole series to `"unknown"`). -/

/-- The fields of a merged-cohort row that the label derivation reads. -/
structure LabelRow where
  hba1c_percent : Option ℚ
  fasting_glucose_mg_dL : Option ℚ
  diabetes_self_report : Option String
  on_insulin_now : Option String
  on_diabetes_pills_now : Option String

/-- `series == "yes"` on one nullable-string cell (object dtype: a
null compares unequal). -/
def eqYesS (v : Option String) : Bool :=
  match v with
  | some s => s = "yes"
  | none => false

/-- `df["on_glucose_lowering_meds"]` (line 65–67):
`((on_insulin_now == "yes") | (on_diabetes_pills_now == "yes")).map({True: "yes", False: "no"})`. -/
def on_glucose_lowering_meds (r : LabelRow) : String :=
  if eqYesS r.on_insulin_now || eqYesS r.on_diabetes_pills_now then "yes" else "no"

/-- `a1c.notna() & (a1c >= 6.5)`. -/
def diabetes_by_a1c (r : LabelRow) : Bool :=
  match r.hba1c_percent with
  | some a => decide ((13 : ℚ) / 2 ≤ a)
  | none => false

/-- `glu.notna() & (glu >= 126)`. -/
def diabetes_by_glu (r : LabelRow) : Bool :=
  match r.fasting_glucose_mg_dL with
  | some g => decide ((126 : ℚ) ≤ g)
  | none => false

/-- `df.get("diabetes_self_report", default "unknown") == "yes"`. -/
def diabetes_by_selfreport (r : LabelRow) : Bool :=
  eqYesS r.diabetes_self_report

/-- `df["on_glucose_lowering_meds"] == "yes"`. -/
def diabetes_by_meds (r : LabelRow) : Bool :=
  on_glucose_lowering_meds r = "yes"

/-- `diabetes = diabetes_by_a1c | diabetes_by_glu | diabetes_by_selfreport | diabetes_by_meds`. -/
def diabetes (r : LabelRow) : Bool :=
  diabetes_by_a1c r || diabetes_by_glu r || diabetes_by_selfreport r || diabetes_by_meds r

/-- `a1c.notna() & (a1c >= 5.7) & (a1c < 6.5)`. -/
def prediabetes_by_a1c (r : LabelRow) : Bool :=
  match r.hba1c_percent with
  | some a => decide ((57 : ℚ) / 10 ≤ a) && decide (a < (13 : ℚ) / 2)
  | none => false

/-- `glu.notna() & (glu >= 100) & (glu < 126)`. -/
def prediabetes_by_glu (r : LabelRow) : Bool :=
  match r.fasting_glucose_mg_dL with
  | some g => decide ((100 : ℚ) ≤ g) && decide (g < (126 : ℚ))
  | none => false

/-- `prediabetes = (~diabetes) & (prediabetes_by_a1c | prediabetes_by_glu)`. -/
def prediabetes (r : LabelRow) : Bool :=
  !diabetes r && (prediabetes_by_a1c r || prediabetes_by_glu r)

/-- The label assignment, mirroring the three sequential dataframe writes:
`df["label_t2d_status"] = 0`, then `df.loc[prediabetes, ...] = 1`, then
`df.loc[diabetes, ...] = 2` (the later write wins). -/
def label_t2d_status (r : LabelRow) : ℕ :=
  let l0 : ℕ := 0
  let l1 : ℕ := if prediabetes r then 1 else l0
  if diabetes r then 2 else l1

/-! ### Sentinel normalizer and categorical recodes (`03_standardize.py`) -/

/-- `MISSING_SENTINELS = {7, 9, 77, 99, 777, 999, 7777, 9999, 77777, 99999}`. -/
def MISSING_SENTINELS : List ℚ :=
  [7, 9, 77, 99, 777, 999, 7777, 9999, 77777, 99999]

/-- `to_null_if_sentinel` on one cell of a numeric column:
`series.where(~series.isin(MISSING_SENTINELS), pd.NA)` keeps a cell exactly
when it is not a sentinel (a null cell is not `isin` anything, so it stays
null). -/
def to_null_if_sentinel (v : Option ℚ) : Option ℚ :=
  match v with
  | none => none
  | some q => if q ∈ MISSING_SENTINELS then none else some q

/-- `to_null_if_sentinel` over a whole numeric column. -/
def to_null_if_sentinel_col (col : List (Option ℚ)) : List (Option ℚ) :=
  col.map to_null_if_sentinel

/-- `.fillna("unknown")` after a `.map`: a cell the mapping left null becomes
the string `"unknown"`. -/
def fillna_unknown (v : Option String) : String :=
  v.getD "unknown"

/-- `map_sex`: `riagendr.map({1: "male", 2: "female"}).fillna("unknown")`. -/
def map_sex (x : Option ℚ) : String :=
  fillna_unknown (x.bind fun v =>
    if v = 1 then some "male"
    else if v = 2 then some "female"
    else none)

/-- `map_race_ethnicity`: the fixed RIDRETH3 mapping, then `.fillna("unknown")`. -/
def map_race_ethnicity (x : Option ℚ) : String :=
  fillna_unknown (x.bind fun v =>
    if v = 1 then some "mexican_american"
    else if v = 2 then some "other_hispanic"
    else if v = 3 then some "non_hispanic_white"
    else if v = 4 then some "non_hispanic_black"
    else if v = 6 then some "non_hispanic_asian"
    else if v = 7 then some "other_or_multiracial"
    else none)

/-- `map_pregnancy`: `{1: "pregnant", 2: "not_pregnant"}`, then `.fillna("unknown")`. -/
def map_pregnancy (x : Option ℚ) : String :=
  fillna_unknown (x.bind fun v =>
    if v = 1 then some "pregnant"
    else if v = 2 then some "not_pregnant"
    else none)

/-- `map_yes_no_unknown`: `to_null_if_sentinel`, then `{1: "yes", 2: "no"}`,
then `.fillna("unknown")`. -/
def map_yes_no_unknown (x : Option ℚ) : String :=
  fillna_unknown ((to_null_if_sentinel x).bind fun v =>
    if v = 1 then some "yes"
    else if v = 2 then some "no"
    else none)

/-! ### Cohort assembler (`04_merge.py`, `left_join`) -/

/-- A table for the merge step: a list of rows, each a subject key (`SEQN`)
paired with the row's other data. -/
abbrev KTable (α : Type) : Type := List (ℕ × α)

/-- `left_join(base, other)` from `04_merge.py`: first the duplicate check
`other["SEQN"].nunique() != len(other)` (number of distinct keys versus row
count), raising `ValueError` — the spec's `DuplicateKeyError` — when it
fails; then `base.merge(other, on="SEQN", how="left")`, which with a
duplicate-free `other` pairs each base row with the at-most-one matching
`other` row (or nulls). -/
def left_join (base : KTable α) (other : KTable β) :
    Except String (KTable (α × Option β)) :=
  if ((other.map Prod.fst).dedup).length ≠ other.length then
    Except.error "Incoming table has duplicate SEQN rows; must aggregate before merge."
  else
    Except.ok (base.map fun r =>
      (r.1, r.2, (other.find? fun o => o.1 = r.1).map Prod.snd))

/-! ### Model artifact registry (`model_registry.py`, `ModelBundle.build_X`) -/

/-- `ModelBundle.build_X`: `row = {col: payload.get(col, None) for col in
self.feature_list}`, one output cell per frozen-feature-list column, in list
order; an absent payload key gives `None` (here `none`).  The payload dict is
embedded as an association list with distinct keys so that key-insertion
order is represented. -/
def build_X (feature_list : List String) (payload : List (String × PVal)) :
    List (String × Option PVal) :=
  feature_list.map fun c => (c, (payload.find? fun kv => kv.1 = c).map Prod.snd)

/-! ### Next-step guidance (`routes.py`, `next_steps_t2d`) -/

def stepConfirm : String :=
  "Consider confirming with a clinician: repeat fasting glucose and/or HbA1c."
def stepConfirmLifestyle : String :=
  "Discuss lifestyle changes (nutrition, activity) and medication options if indicated."
def stepFollowUp : String :=
  "Consider follow-up screening (HbA1c and fasting glucose) within 3-6 months."
def stepFollowUpLifestyle : String :=
  "Lifestyle changes: increase activity, reduce refined carbs, aim for waist/BMI improvement."
def stepRoutine : String :=
  "Maintain healthy lifestyle habits and routine screening intervals."
def stepA1cTrend : String :=
  "Your HbA1c is in a higher range; consider monitoring trends over time."

/-- `next_steps_t2d(p_diabetes, p_pred, req)`: the probability-branched base
guidance, then the HbA1c-trend note appended whenever the request's
`hba1c_percent` is present and at least 5.7. -/
def next_steps_t2d (p_diabetes p_pred : ℚ) (hba1c_percent : Option ℚ) :
    List String :=
  let steps :=
    if (1 : ℚ) / 2 ≤ p_diabetes then [stepConfirm, stepConfirmLifestyle]
    else if (1 : ℚ) / 2 ≤ p_pred then [stepFollowUp, stepFollowUpLifestyle]
    else [stepRoutine]
  match hba1c_percent with
  | some h => if (57 : ℚ) / 10 ≤ h then steps ++ [stepA1cTrend] else steps
  | none => steps

/-! ## Theorems -/

/-! ### Label derivation: helper characterizations -/

lemma diabetes_true_iff (r : LabelRow) :
    diabetes r = true ↔
      (∃ a, r.hba1c_percent = some a ∧ (13 : ℚ) / 2 ≤ a) ∨
      (∃ g, r.fasting_glucose_mg_dL = some g ∧ (126 : ℚ) ≤ g) ∨
      r.diabetes_self_report = some "yes" ∨
      on_glucose_lowering_meds r = "yes" := by
  rcases r with ⟨a1c, glu, sr, ins, pills⟩
  cases a1c <;> cases glu <;> cases sr <;>
    simp [diabetes, diabetes_by_a1c, diabetes_by_glu, diabetes_by_selfreport,
      diabetes_by_meds, eqYesS] <;> tauto

lemma prediabetes_signal_true_iff (r : LabelRow) :
    (prediabetes_by_a1c r || prediabetes_by_glu r) = true ↔
      (∃ a, r.hba1c_percent = some a ∧ (57 : ℚ) / 10 ≤ a ∧ a < (13 : ℚ) / 2) ∨
      (∃ g, r.fasting_glucose_mg_dL = some g ∧ (100 : ℚ) ≤ g ∧ g < 126) := by
  rcases r with ⟨a1c, glu, sr, ins, pills⟩
  cases a1c <;> cases glu <;>
    simp [prediabetes_by_a1c, prediabetes_by_glu, and_assoc]

lemma label_eq_two_iff (r : LabelRow) :
    label_t2d_status r = 2 ↔ diabetes r = true := by
  unfold label_t2d_status
  cases hd : diabetes r <;> cases hp : prediabetes r <;> simp [hd, hp]

lemma label_eq_one_iff (r : LabelRow) :
    label_t2d_status r = 1 ↔
      diabetes r = false ∧ (prediabetes_by_a1c r || prediabetes_by_glu r) = true := by
  unfold label_t2d_status prediabetes
  cases hd : diabetes r <;>
    cases hp : (prediabetes_by_a1c r || prediabetes_by_glu r) <;> simp [hd, hp]

lemma label_eq_zero_iff (r : LabelRow) :
    label_t2d_status r = 0 ↔
      diabetes r = false ∧ (prediabetes_by_a1c r || prediabetes_by_glu r) = false := by
  unfold label_t2d_status prediabetes
  cases hd : diabetes r <;>
    cases hp : (prediabetes_by_a1c r || prediabetes_by_glu r) <;> simp [hd, hp]

/-- C2: for every record, the derived label is 2 exactly when one of the four
diabetes evidence signals fires (HbA1c present and ≥ 6.5, fasting glucose
present and ≥ 126, self-reported diabetes flag "yes", or the combined
glucose-lowering medication flag "yes"); 1 exactly when no diabetes signal
fires and HbA1c is present and in [5.7, 6.5) or fasting glucose is present
and in [100, 126); and 0 otherwise — missing measurements never fire a
signal. -/
theorem label_t2d_status_characterization (r : LabelRow) :
    (label_t2d_status r = 2 ↔
      ((∃ a, r.hba1c_percent = some a ∧ (13 : ℚ) / 2 ≤ a) ∨
       (∃ g, r.fasting_glucose_mg_dL = some g ∧ (126 : ℚ) ≤ g) ∨
       r.diabetes_self_report = some "yes" ∨
       on_glucose_lowering_meds r = "yes")) ∧
    (label_t2d_status r = 1 ↔
      (¬ ((∃ a, r.hba1c_percent = some a ∧ (13 : ℚ) / 2 ≤ a) ∨
          (∃ g, r.fasting_glucose_mg_dL = some g ∧ (126 : ℚ) ≤ g) ∨
          r.diabetes_self_report = some "yes" ∨
          on_glucose_lowering_meds r = "yes") ∧
       ((∃ a, r.hba1c_percent = some a ∧ (57 : ℚ) / 10 ≤ a ∧ a < (13 : ℚ) / 2) ∨
        (∃ g, r.fasting_glucose_mg_dL = some g ∧ (100 : ℚ) ≤ g ∧ g < 126)))) ∧
    (label_t2d_status r = 0 ↔
      (¬ ((∃ a, r.hba1c_percent = some a ∧ (13 : ℚ) / 2 ≤ a) ∨
          (∃ g, r.fasting_glucose_mg_dL = some g ∧ (126 : ℚ) ≤ g) ∨
          r.diabetes_self_report = some "yes" ∨
          on_glucose_lowering_meds r = "yes") ∧
       ¬ ((∃ a, r.hba1c_percent = some a ∧ (57 : ℚ) / 10 ≤ a ∧ a < (13 : ℚ) / 2) ∨
          (∃ g, r.fasting_glucose_mg_dL = some g ∧ (100 : ℚ) ≤ g ∧ g < 126)))) := by
  refine ⟨?_, ?_, ?_⟩
  · rw [label_eq_two_iff, diabetes_true_iff]
  · rw [label_eq_one_iff]
    exact and_congr (Bool.eq_false_iff.trans (not_congr (diabetes_true_iff r)))
      (prediabetes_signal_true_iff r)
  · rw [label_eq_zero_iff]
    exact and_congr (Bool.eq_false_iff.trans (not_congr (diabetes_true_iff r)))
      (Bool.eq_false_iff.trans (not_congr (prediabetes_signal_true_iff r)))

/-- C3: whenever some diabetes evidence signal fires and some prediabetes
evidence signal (HbA1c in [5.7, 6.5) or fasting glucose in [100, 126)) also
fires, the derived label is 2 (diabetes), never 1. -/
theorem label_precedence (r : LabelRow)
    (hdiab : (∃ a, r.hba1c_percent = some a ∧ (13 : ℚ) / 2 ≤ a) ∨
             (∃ g, r.fasting_glucose_mg_dL = some g ∧ (126 : ℚ) ≤ g) ∨
             r.diabetes_self_report = some "yes" ∨
             on_glucose_lowering_meds r = "yes")
    (hpre : (∃ a, r.hba1c_percent = some a ∧ (57 : ℚ) / 10 ≤ a ∧ a < (13 : ℚ) / 2) ∨
            (∃ g, r.fasting_glucose_mg_dL = some g ∧ (100 : ℚ) ≤ g ∧ g < 126)) :
    label_t2d_status r = 2 := by
  have hd : diabetes r = true := (diabetes_true_iff r).mpr hdiab
  unfold label_t2d_status
  simp [hd]

/-- Witness for C3: HbA1c 7.0 fires a diabetes signal and fasting glucose 110
fires a prediabetes signal; the label is 2. -/
theorem label_precedence_witness :
    label_t2d_status ⟨some 7, some 110, none, none, none⟩ = 2 :=
  label_precedence ⟨some 7, some 110, none, none, none⟩
    (Or.inl ⟨7, rfl, by norm_num⟩)
    (Or.inr ⟨110, rfl, by norm_num, by norm_num⟩)

/-! ### Sentinel normalizer -/

lemma to_null_if_sentinel_idem (v : Option ℚ) :
    to_null_if_sentinel (to_null_if_sentinel v) = to_null_if_sentinel v := by
  cases v with
  | none => rfl
  | some q =>
    by_cases h : q ∈ MISSING_SENTINELS <;> simp [to_null_if_sentinel, h]

lemma to_null_if_sentinel_ne_sentinel (v : Option ℚ) (q : ℚ)
    (hq : q ∈ MISSING_SENTINELS) : to_null_if_sentinel v ≠ some q := by
  cases v with
  | none => simp [to_null_if_sentinel]
  | some x =>
    by_cases h : x ∈ MISSING_SENTINELS
    · simp [to_null_if_sentinel, h]
    · simp [to_null_if_sentinel, h]
      rintro rfl
      exact h hq

/-- C7: on a numeric column the Sentinel Normalizer nulls exactly the values
in the reserved code set {7, 9, 77, 99, 777, 999, 7777, 9999, 77777, 99999}
and passes every other value through; applying it twice equals applying it
once, and no reserved value survives two passes. -/
theorem sentinel_normalizer_props (col : List (Option ℚ)) :
    (∀ q ∈ MISSING_SENTINELS, to_null_if_sentinel (some q) = none) ∧
    (∀ q : ℚ, q ∉ MISSING_SENTINELS → to_null_if_sentinel (some q) = some q) ∧
    to_null_if_sentinel_col (to_null_if_sentinel_col col) = to_null_if_sentinel_col col ∧
    (∀ q ∈ MISSING_SENTINELS,
      some q ∉ to_null_if_sentinel_col (to_null_if_sentinel_col col)) := by
  refine ⟨?_, ?_, ?_, ?_⟩
  · intro q hq
    simp [to_null_if_sentinel, hq]
  · intro q hq
    simp [to_null_if_sentinel, hq]
  · unfold to_null_if_sentinel_col
    rw [List.map_map]
    exact List.map_congr_left fun v _ => to_null_if_sentinel_idem v
  · intro q hq hmem
    unfold to_null_if_sentinel_col at hmem
    rw [List.mem_map] at hmem
    obtain ⟨v, _, hv⟩ := hmem
    exact to_null_if_sentinel_ne_sentinel v q hq hv

/-- Witness for C7 on a concrete column: 7 is nulled, 8 passes through, and
the sentinel 7 is absent after two passes over `[7, 8, null]`. -/
theorem sentinel_normalizer_props_witness :
    to_null_if_sentinel (some 7) = none ∧
    to_null_if_sentinel (some 8) = some 8 ∧
    some (7 : ℚ) ∉
      to_null_if_sentinel_col (to_null_if_sentinel_col [some 7, some 8, none]) :=
  ⟨(sentinel_normalizer_props [some 7, some 8, none]).1 7 (by decide),
   (sentinel_normalizer_props [some 7, some 8, none]).2.1 8 (by decide),
   (sentinel_normalizer_props [some 7, some 8, none]).2.2.2 7 (by decide)⟩

/-! ### Categorical recodes -/

/-- C8: each categorical recode returns either a label of its fixed
integer-to-label mapping or the exact string `"unknown"` for any unmapped or
missing input; the codomain is `String`, never null. -/
theorem categorical_recode_props (x : Option ℚ) :
    (map_sex x ∈ ["male", "female", "unknown"] ∧
      ((∀ q : ℚ, x = some q → q ≠ 1 ∧ q ≠ 2) → map_sex x = "unknown")) ∧
    (map_race_ethnicity x ∈
        ["mexican_american", "other_hispanic", "non_hispanic_white",
         "non_hispanic_black", "non_hispanic_asian", "other_or_multiracial",
         "unknown"] ∧
      ((∀ q : ℚ, x = some q → q ≠ 1 ∧ q ≠ 2 ∧ q ≠ 3 ∧ q ≠ 4 ∧ q ≠ 6 ∧ q ≠ 7) →
        map_race_ethnicity x = "unknown")) ∧
    (map_pregnancy x ∈ ["pregnant", "not_pregnant", "unknown"] ∧
      ((∀ q : ℚ, x = some q → q ≠ 1 ∧ q ≠ 2) → map_pregnancy x = "unknown")) ∧
    (map_yes_no_unknown x ∈ ["yes", "no", "unknown"] ∧
      ((∀ q : ℚ, x = some q → q ≠ 1 ∧ q ≠ 2) → map_yes_no_unknown x = "unknown")) := by
  rcases x with _ | q
  · simp [map_sex, map_race_ethnicity, map_pregnancy, map_yes_no_unknown,
      to_null_if_sentinel, fillna_unknown]
  · refine ⟨⟨?_, ?_⟩, ⟨?_, ?_⟩, ⟨?_, ?_⟩, ⟨?_, ?_⟩⟩
    · simp only [map_sex, fillna_unknown, Option.some_bind]
      split_ifs <;> simp
    · intro h
      obtain ⟨h1, h2⟩ := h q rfl
      simp [map_sex, fillna_unknown, h1, h2]
    · simp only [map_race_ethnicity, fillna_unknown, Option.some_bind]
      split_ifs <;> simp
    · intro h
      obtain ⟨h1, h2, h3, h4, h6, h7⟩ := h q rfl
      simp [map_race_ethnicity, fillna_unknown, h1, h2, h3, h4, h6, h7]
    · simp only [map_pregnancy, fillna_unknown, Option.some_bind]
      split_ifs <;> simp
    · intro h
      obtain ⟨h1, h2⟩ := h q rfl
      simp [map_pregnancy, fillna_unknown, h1, h2]
    · by_cases hs : q ∈ MISSING_SENTINELS <;>
        simp only [map_yes_no_unknown, to_null_if_sentinel, fillna_unknown, hs,
          if_true, if_false, Option.some_bind, Option.none_bind, ite_true, ite_false]
      · simp
      · split_ifs <;> simp
    · intro h
      obtain ⟨h1, h2⟩ := h q rfl
      by_cases hs : q ∈ MISSING_SENTINELS <;>
        simp [map_yes_no_unknown, to_null_if_sentinel, fillna_unknown, hs, h1, h2]

/-- Witness for C8: the unmapped code 3 recodes to `"unknown"` for sex, and
the sentinel code 7 recodes to `"unknown"` for a yes/no item. -/
theorem categorical_recode_props_witness :
    map_sex (some 3) = "unknown" ∧ map_yes_no_unknown (some 7) = "unknown" :=
  ⟨(categorical_recode_props (some 3)).1.2
      (by rintro q hq; rw [Option.some_inj] at hq; subst hq; constructor <;> norm_num),
   (categorical_recode_props (some 7)).2.2.2.2
      (by rintro q hq; rw [Option.some_inj] at hq; subst hq; constructor <;> norm_num)⟩

/-! ### Next-step guidance -/

/-- C9: the guidance contains the clinical-confirmation step exactly when the
diabetes probability is ≥ 0.5, the follow-up-screening step exactly when it
is < 0.5 and the prediabetes probability is ≥ 0.5, the routine step exactly
when both are < 0.5, and the HbA1c-trend note exactly when the request's
HbA1c is present and ≥ 5.7, independently of the probability branch. -/
theorem next_steps_characterization (p_diabetes p_pred : ℚ) (hba1c : Option ℚ) :
    (stepConfirm ∈ next_steps_t2d p_diabetes p_pred hba1c ↔
        (1 : ℚ) / 2 ≤ p_diabetes) ∧
    (stepFollowUp ∈ next_steps_t2d p_diabetes p_pred hba1c ↔
        ¬ (1 : ℚ) / 2 ≤ p_diabetes ∧ (1 : ℚ) / 2 ≤ p_pred) ∧
    (stepRoutine ∈ next_steps_t2d p_diabetes p_pred hba1c ↔
        ¬ (1 : ℚ) / 2 ≤ p_diabetes ∧ ¬ (1 : ℚ) / 2 ≤ p_pred) ∧
    (stepA1cTrend ∈ next_steps_t2d p_diabetes p_pred hba1c ↔
        ∃ a, hba1c = some a ∧ (57 : ℚ) / 10 ≤ a) := by
  rcases hba1c with _ | a <;>
    simp only [next_steps_t2d] <;>
    split_ifs <;>
    simp_all [stepConfirm, stepConfirmLifestyle, stepFollowUp,
      stepFollowUpLifestyle, stepRoutine, stepA1cTrend, not_le, one_div]

/-! ### Cohort assembler: join cardinality -/

lemma dedup_length_eq_iff {l : List ℕ} : l.dedup.length = l.length ↔ l.Nodup := by
  constructor
  · intro h
    have he := (List.dedup_sublist l).eq_of_length h
    rw [← he]
    exact l.nodup_dedup
  · intro h
    rw [List.dedup_eq_self.mpr h]

lemma not_nodup_iff_two_le_count {l : List ℕ} :
    ¬ l.Nodup ↔ ∃ k, 2 ≤ l.count k := by
  rw [List.nodup_iff_count_le_one]
  push_neg
  exact exists_congr fun a => by omega

/-- C5: `left_join(base, other)` raises the duplicate-key error exactly when
`other` holds more than one row for some subject key, and otherwise returns a
left-joined table with exactly as many rows as `base`. -/
theorem left_join_spec {α β : Type} (base : KTable α) (other : KTable β) :
    ((∃ e, left_join base other = Except.error e) ↔
        ∃ k, 2 ≤ (other.map Prod.fst).count k) ∧
    (∀ t, left_join base other = Except.ok t → t.length = base.length) := by
  have hl : (other.map Prod.fst).length = other.length := List.length_map _ _
  have key : ((other.map Prod.fst).dedup).length ≠ other.length ↔
      ∃ k, 2 ≤ (other.map Prod.fst).count k := by
    rw [← hl, Ne, dedup_length_eq_iff]
    exact not_nodup_iff_two_le_count
  by_cases hc : ((other.map Prod.fst).dedup).length ≠ other.length
  · refine ⟨?_, ?_⟩
    · simp only [left_join, if_pos hc]
      exact ⟨fun _ => key.mp hc, fun _ => ⟨_, rfl⟩⟩
    · intro t ht
      simp only [left_join, if_pos hc] at ht
      cases ht
  · refine ⟨?_, ?_⟩
    · simp only [left_join, if_neg hc]
      constructor
      · rintro ⟨e, he⟩
        cases he
      · intro hk
        exact absurd (key.mpr hk) hc
    · intro t ht
      simp only [left_join, if_neg hc, Except.ok.injEq] at ht
      rw [← ht]
      exact List.length_map _ _

/-- Witness for C5: joining a one-row base with a duplicate-free one-row
table yields exactly one row. -/
theorem left_join_spec_witness :
    ([((1 : ℕ), (0 : ℕ), some (5 : ℕ))] : KTable (ℕ × Option ℕ)).length =
      ([((1 : ℕ), (0 : ℕ))] : KTable ℕ).length :=
  (left_join_spec [((1 : ℕ), (0 : ℕ))] [((1 : ℕ), (5 : ℕ))]).2 _ rfl

/-! ### Model artifact registry: row building -/

lemma find?_key_eq_of_perm {α : Type} {l₁ l₂ : List (String × α)}
    (h : l₁.Perm l₂) :
    (l₁.map Prod.fst).Nodup → ∀ c : String,
      (l₁.find? fun kv => kv.1 = c) = (l₂.find? fun kv => kv.1 = c) := by
  induction h with
  | nil => exact fun _ _ => rfl
  | cons x h ih =>
    intro hnd c
    rw [List.map_cons, List.nodup_cons] at hnd
    by_cases hx : x.1 = c
    · rw [List.find?_cons_of_pos _ (by simp [hx]),
        List.find?_cons_of_pos _ (by simp [hx])]
    · rw [List.find?_cons_of_neg _ (by simp [hx]),
        List.find?_cons_of_neg _ (by simp [hx])]
      exact ih hnd.2 c
  | swap x y l =>
    intro hnd c
    rw [List.map_cons, List.map_cons, List.nodup_cons, List.mem_cons] at hnd
    have hyx : y.1 ≠ x.1 := fun he => hnd.1 (Or.inl he)
    by_cases hy : y.1 = c <;> by_cases hx : x.1 = c
    · exact absurd (hy.trans hx.symm) hyx
    · rw [List.find?_cons_of_pos _ (by simp [hy]),
        List.find?_cons_of_neg _ (by simp [hx]),
        List.find?_cons_of_pos _ (by simp [hy])]
    · rw [List.find?_cons_of_neg _ (by simp [hy]),
        List.find?_cons_of_pos _ (by simp [hx]),
        List.find?_cons_of_pos _ (by simp [hx])]
    · rw [List.find?_cons_of_neg _ (by simp [hy]),
        List.find?_cons_of_neg _ (by simp [hx]),
        List.find?_cons_of_neg _ (by simp [hx]),
        List.find?_cons_of_neg _ (by simp [hy])]
  | trans h₁ h₂ ih₁ ih₂ =>
    intro hnd c
    rw [ih₁ hnd c, ih₂ (((h₁.map Prod.fst).nodup_iff).mp hnd) c]

/-- C6: `build_X` returns a single-row vector whose columns are exactly the
frozen feature list in its stored order and length; payload keys outside the
list never appear; list fields absent from the payload are filled with null;
and the output is invariant under any permutation of the payload's key
ordering. -/
theorem build_X_props (fl : List String) (payload payload' : List (String × PVal)) :
    ((build_X fl payload).map Prod.fst = fl) ∧
    ((build_X fl payload).length = fl.length) ∧
    (∀ c v, (c, v) ∈ build_X fl payload → c ∈ fl) ∧
    (∀ c ∈ fl, c ∉ payload.map Prod.fst →
      (c, (none : Option PVal)) ∈ build_X fl payload) ∧
    ((payload.map Prod.fst).Nodup → payload.Perm payload' →
      build_X fl payload = build_X fl payload') := by
  refine ⟨?_, ?_, ?_, ?_, ?_⟩
  · simp [build_X, List.map_map, Function.comp_def]
  · simp [build_X]
  · intro c v hm
    simp only [build_X, List.mem_map] at hm
    obtain ⟨c', hc', he⟩ := hm
    rw [Prod.mk.injEq] at he
    rw [← he.1]
    exact hc'
  · intro c hc habs
    have hfind : (payload.find? fun kv => kv.1 = c) = none := by
      rw [List.find?_eq_none]
      intro kv hkv
      simp only [decide_eq_true_eq]
      intro hkc
      exact habs (hkc ▸ List.mem_map_of_mem Prod.fst hkv)
    simp only [build_X, List.mem_map]
    exact ⟨c, hc, by rw [hfind]; rfl⟩
  · intro hnd hperm
    unfold build_X
    exact List.map_congr_left fun c _ => by rw [find?_key_eq_of_perm hperm hnd c]

/-- Witness for C6: a two-key payload given in both key orders builds the
same row over the list `["a", "b"]`, and the absent field `"a"` is filled
with null. -/
theorem build_X_props_witness :
    build_X ["a", "b"] [("b", PVal.num 1), ("x", PVal.num 2)]
        = build_X ["a", "b"] [("x", PVal.num 2), ("b", PVal.num 1)] ∧
    ("a", (none : Option PVal)) ∈ build_X ["a", "b"] [("b", PVal.num 1), ("x", PVal.num 2)] :=
  ⟨(build_X_props ["a", "b"] [("b", PVal.num 1), ("x", PVal.num 2)]
        [("x", PVal.num 2), ("b", PVal.num 1)]).2.2.2.2
      (by decide) (List.Perm.swap _ _ _),
   (build_X_props ["a", "b"] [("b", PVal.num 1), ("x", PVal.num 2)]
        [("x", PVal.num 2), ("b", PVal.num 1)]).2.2.2.1
      "a" (by decide) (by decide)⟩

/-! ### Serving-time derivation: frame property -/

lemma update_isSome (p : Payload) (kk : String) (v : PVal) (k : String)
    (h : (p k).isSome) : ((p.update kk v) k).isSome := by
  unfold Payload.update
  split_ifs <;> simp_all

/-- C10: `compute_derived_fields` writes at most the keys `bmi`,
`tg_to_hdl_ratio` and `non_hdl_chol_mg_dL`; every other key keeps the value
it had, and no key present in the input is removed. -/
theorem compute_derived_fields_frame (p : Payload) (hp : WellTyped p) :
    (∀ k, k ≠ "bmi" → k ≠ "tg_to_hdl_ratio" → k ≠ "non_hdl_chol_mg_dL" →
      compute_derived_fields p k = p k) ∧
    (∀ k, (p k).isSome → ((compute_derived_fields p) k).isSome) := by
  constructor
  · intro k h1 h2 h3
    unfold compute_derived_fields
    repeat' split
    all_goals simp [Payload.update, h1, h2, h3]
  · intro k hk
    unfold compute_derived_fields
    repeat' split
    all_goals
      repeat
        first
        | exact hk
        | apply update_isSome

/-- A payload with no numeric key present (trivially well typed). -/
def payloadSexOnly : Payload := fun k =>
  if k = "sex_at_birth" then some (PVal.str "male") else none

lemma payloadSexOnly_wellTyped : WellTyped payloadSexOnly := by
  intro k hk v hv
  fin_cases hk <;> simp [payloadSexOnly] at hv

/-- Witness for C10 at a concrete payload: a non-derived key is untouched and
stays present. -/
theorem compute_derived_fields_frame_witness :
    compute_derived_fields payloadSexOnly "sex_at_birth"
        = payloadSexOnly "sex_at_birth" ∧
    ((compute_derived_fields payloadSexOnly) "sex_at_birth").isSome :=
  ⟨(compute_derived_fields_frame payloadSexOnly payloadSexOnly_wellTyped).1
      "sex_at_birth" (by decide) (by decide) (by decide),
   (compute_derived_fields_frame payloadSexOnly payloadSexOnly_wellTyped).2
      "sex_at_birth" (by decide)⟩

/-! ### Train/serve parity of the two derivations -/

/-- A payload in which `tg_to_hdl_ratio` is already supplied (99) alongside
triglycerides 100, HDL 50 and both medication flags `"no"`. -/
def payloadSupplied : Payload := fun k =>
  if k = "tg_to_hdl_ratio" then some (PVal.num 99)
  else if k = "triglycerides_mg_dL" then some (PVal.num 100)
  else if k = "hdl_mg_dL" then some (PVal.num 50)
  else if k = "on_insulin_now" then some (PVal.str "no")
  else if k = "on_diabetes_pills_now" then some (PVal.str "no")
  else none

/-- A payload with HDL 0, triglycerides 100 and no supplied ratio. -/
def payloadHdlZero : Payload := fun k =>
  if k = "triglycerides_mg_dL" then some (PVal.num 100)
  else if k = "hdl_mg_dL" then some (PVal.num 0)
  else if k = "on_insulin_now" then some (PVal.str "no")
  else if k = "on_diabetes_pills_now" then some (PVal.str "no")
  else none

/-- C1: on the single-row table for `payloadSupplied` the bulk-mode
derivation overwrites the supplied TG/HDL ratio with 100/50 = 2 and writes a
combined medication flag, while the single-row serving derivation keeps the
supplied ratio 99 and never writes a medication flag — the two modes
disagree field-for-field. -/
theorem bulk_vs_single_row_divergence :
    (features_bulk_row payloadSupplied).map (fun q => q "tg_to_hdl_ratio")
        = some (some (PVal.num 2)) ∧
    compute_derived_fields payloadSupplied "tg_to_hdl_ratio"
        = some (PVal.num 99) ∧
    (features_bulk_row payloadSupplied).map (fun q => q "on_glucose_lowering_meds")
        = some (some (PVal.str "no")) ∧
    compute_derived_fields payloadSupplied "on_glucose_lowering_meds" = none := by
  refine ⟨?_, ?_, ?_, ?_⟩ <;>
    simp [features_bulk_row, compute_derived_fields, payloadSupplied,
      Payload.update, Payload.isNoneAt, Payload.getNum, seriesDiv, pandasDiv,
      eqYes] <;>
    norm_num

/-- C4: the bulk-mode derivation overwrites a supplied `tg_to_hdl_ratio`
(99 becomes 100/50 = 2), and with HDL 0 it produces +inf instead of leaving
the field null. -/
theorem tg_to_hdl_overwrite :
    payloadSupplied "tg_to_hdl_ratio" = some (PVal.num 99) ∧
    (features_bulk_row payloadSupplied).map (fun q => q "tg_to_hdl_ratio")
        = some (some (PVal.num 2)) ∧
    payloadHdlZero "tg_to_hdl_ratio" = none ∧
    (features_bulk_row payloadHdlZero).map (fun q => q "tg_to_hdl_ratio")
        = some (some PVal.posinf) := by
  refine ⟨?_, ?_, ?_, ?_⟩ <;>
    simp [features_bulk_row, payloadSupplied, payloadHdlZero, Payload.update,
      Payload.isNoneAt, Payload.getNum, seriesDiv, pandasDiv, eqYes] <;>
    norm_num

end Subvita
